import Mathlib

/-!
Shallow embedding of `src/python/txtai/models/pooling/factory.py`
(`PoolingFactory.create`, `PoolingFactory.method`, `PoolingFactory.maxlength`,
`PoolingFactory.load`).

The external world is modelled by two oracles:
* `Hub` plays the role of `PoolingFactory.load` / `hf_hub_download`: for each
  model path it either returns the parsed JSON artifact or `Option.none`,
  which stands for `EntryNotFoundError`.  Other I/O failures (network, auth)
  are outside the model, as they are outside the factory's error handling.
* `FS` answers `os.path.isfile` and `os.path.exists`.

`create` is additionally instrumented with a trace (`List Event`) recording,
in execution order, every filesystem check and every hub lookup it performs,
so that "no remote lookup happens" statements are expressible.
-/

/-- Python value of the `path` configuration entry: a string (model id or
local path), raw `bytes` content, or `None` (absent key). -/
inductive PyPath where
  | str (s : String)
  | bytes (b : List Nat)
  | none
deriving DecidableEq, Repr

/-- Python value of the `maxlength` configuration entry: `None`, a `bool`, or
an `int`.  (`isinstance(x, bool)` distinguishes the middle case: in Python an
`int` literal is never an instance of `bool`.) -/
inductive MaxLen where
  | none
  | bool (b : Bool)
  | int (n : Int)
deriving DecidableEq, Repr

/-- Parsed content of a `1_Pooling/config.json` artifact.  Each flag may be
absent from the JSON object; the source reads them with dict subscripting
(`config["..."]`), which raises `KeyError` on absence. -/
structure PoolingCfg where
  pooling_mode_cls_token : Option Bool
  pooling_mode_mean_tokens : Option Bool
deriving DecidableEq, Repr

/-- Parsed content of a `sentence_bert_config.json` artifact.  The
`max_seq_length` field may be absent; the source reads it with `config.get`,
which returns `None` on absence. -/
structure BertCfg where
  max_seq_length : Option Int
deriving DecidableEq, Repr

/-- The Hugging Face Hub as observed through `PoolingFactory.load`:
`Option.none` stands for `EntryNotFoundError` (artifact does not exist). -/
structure Hub where
  poolingConfig : PyPath → Option PoolingCfg
  bertConfig : PyPath → Option BertCfg

/-- Local filesystem oracle for `os.path.isfile` and `os.path.exists`. -/
structure FS where
  isfile : String → Bool
  pathexists : String → Bool

/-- Python exception escaping the factory.  Only `KeyError` can: the resolvers
catch `EntryNotFoundError` and nothing else. -/
inductive PyErr where
  | keyError (k : String)
deriving DecidableEq, Repr

/-- The input configuration dict, as the six `config.get(key)` results
unpacked at the top of `create`.  `device`, `tokenizer` and `modelargs` are
opaque pass-through values. -/
structure Config where
  method : Option String
  path : PyPath
  device : Option Nat
  tokenizer : Option Nat
  maxlength : MaxLen
  modelargs : Option Nat
deriving DecidableEq, Repr

/-- A constructed pooling model — `Pooling`, `ClsPooling` or `MeanPooling` —
holding the `(path, device, tokenizer, maxlength, modelargs)` constructor
arguments the factory hands over. -/
inductive Strategy where
  | pooling (path : PyPath) (device tokenizer : Option Nat) (maxlength : MaxLen)
      (modelargs : Option Nat)
  | clsPooling (path : PyPath) (device tokenizer : Option Nat) (maxlength : MaxLen)
      (modelargs : Option Nat)
  | meanPooling (path : PyPath) (device tokenizer : Option Nat) (maxlength : MaxLen)
      (modelargs : Option Nat)
deriving DecidableEq, Repr

/-- The `maxlength` argument handed to the constructed strategy. -/
def Strategy.maxlen : Strategy → MaxLen
  | Strategy.pooling _ _ _ m _ => m
  | Strategy.clsPooling _ _ _ m _ => m
  | Strategy.meanPooling _ _ _ m _ => m

/-- Observable side effect of one `create` call: a filesystem check
(`os.path.isfile` / `os.path.exists`) or a hub artifact lookup
(`sentence_bert_config.json` by the maxlength resolver, `1_Pooling/config.json`
by the method resolver). -/
inductive Event where
  | isfileCheck (s : String)
  | existsCheck (s : String)
  | bertLookup (p : PyPath)
  | poolingLookup (p : PyPath)
deriving DecidableEq, Repr

/-- `PoolingFactory.method`: determines the pooling method from the
`1_Pooling/config.json` artifact.  Default is `"meanpooling"`; the artifact
switches it to `"clspooling"` exactly when
`config["pooling_mode_cls_token"] and not config["pooling_mode_mean_tokens"]`
holds.  `EntryNotFoundError` is absorbed; a `KeyError` from a missing flag
escapes (the `and` short-circuits, so the mean flag is only read when the cls
flag is present and truthy). -/
def PoolingFactory.method (hub : Hub) (path : PyPath) : Except PyErr String :=
  match hub.poolingConfig path with
  | Option.none => Except.ok "meanpooling"
  | Option.some cfg =>
    match cfg.pooling_mode_cls_token with
    | Option.none => Except.error (PyErr.keyError "pooling_mode_cls_token")
    | Option.some cls =>
      if cls then
        match cfg.pooling_mode_mean_tokens with
        | Option.none => Except.error (PyErr.keyError "pooling_mode_mean_tokens")
        | Option.some mean => Except.ok (if mean then "meanpooling" else "clspooling")
      else Except.ok "meanpooling"

/-- `PoolingFactory.maxlength`: reads `max_seq_length` from
`sentence_bert_config.json`.  Absent artifact (`EntryNotFoundError`) and
absent field (`config.get`) both yield `None`. -/
def PoolingFactory.maxlength (hub : Hub) (path : PyPath) : Option Int :=
  match hub.bertConfig path with
  | Option.none => Option.none
  | Option.some cfg => cfg.max_seq_length

/-- Coerce the maxlength resolver's Python result (`None` or an `int`) into a
`maxlength` configuration value. -/
def MaxLen.ofOption : Option Int → MaxLen
  | Option.none => MaxLen.none
  | Option.some n => MaxLen.int n

/-- `isinstance(maxlength, bool) and maxlength` — the guard on line 39 of the
source deciding whether the maxlength resolver runs. -/
def MaxLen.isTrue : MaxLen → Bool
  | MaxLen.bool b => b
  | _ => false

/-- The raw-pooling branch guard of `create` (line 42):
`isinstance(path, bytes) or (isinstance(path, str) and os.path.isfile(path))
or method == "pooling"`. -/
def rawBranch (fs : FS) (method : Option String) (path : PyPath) : Bool :=
  (match path with | PyPath.bytes _ => true | _ => false) ||
  (match path with | PyPath.str s => fs.isfile s | _ => false) ||
  (method == Option.some "pooling")

/-- `not method or method not in ("clspooling", "meanpooling")` — the left
conjunct of the method-derivation guard (line 46).  Python `not method` is
truthy for `None` and for the empty string. -/
def methodUnpinned (method : Option String) : Bool :=
  (match method with | Option.none => true | Option.some s => s == "") ||
  (match method with
   | Option.none => true
   | Option.some s => !(s == "clspooling" || s == "meanpooling"))

/-- `isinstance(path, str) and not os.path.exists(path)` — the right conjunct
of the method-derivation guard (line 46). -/
def strNotLocal (fs : FS) (path : PyPath) : Bool :=
  match path with
  | PyPath.str s => !fs.pathexists s
  | _ => false

/-- The resolved `maxlength` after step 1 of `create`: derived from the hub
when the configured value is the boolean `True`, passed through unchanged
otherwise. -/
def deriveMaxlength (hub : Hub) (p : PyPath) (ml : MaxLen) : MaxLen :=
  if ml.isTrue then MaxLen.ofOption (PoolingFactory.maxlength hub p) else ml

/-- Hub lookup performed by step 1 of `create`: the
`sentence_bert_config.json` lookup happens exactly when the configured
`maxlength` is the boolean `True`. -/
def bertEvents (p : PyPath) (ml : MaxLen) : List Event :=
  if ml.isTrue then [Event.bertLookup p] else []

/-- Filesystem check performed by the raw-branch guard: `os.path.isfile` is
consulted exactly when the path is a string. -/
def isfileEvents (p : PyPath) : List Event :=
  match p with | PyPath.str s => [Event.isfileCheck s] | _ => []

/-- Filesystem check performed by the method-derivation guard:
`os.path.exists` runs only when the left conjunct held (short-circuit `and`)
and the path is a string. -/
def existsEvents (m : Option String) (p : PyPath) : List Event :=
  if methodUnpinned m then
    match p with | PyPath.str s => [Event.existsCheck s] | _ => []
  else []

/-- `PoolingFactory.create`, instrumented with the ordered list of filesystem
checks and hub lookups it performs.  Structure mirrors the source:
1. derive `maxlength` when the option is the boolean `True` (line 39);
2. raw branch: `bytes` path, existing local file, or `method == "pooling"`
   returns `Pooling` (lines 42-43);
3. derive `method` when unpinned and the path is a non-local string
   (lines 46-47), propagating a `KeyError` from the resolver;
4. `ClsPooling` when the method equals `"clspooling"`, else `MeanPooling`
   (lines 50-54). -/
def PoolingFactory.create (fs : FS) (hub : Hub) (config : Config) :
    Except PyErr Strategy × List Event :=
  let method := config.method
  let path := config.path
  let device := config.device
  let tokenizer := config.tokenizer
  let modelargs := config.modelargs
  -- Derive maxlength, if applicable
  let maxlength := deriveMaxlength hub path config.maxlength
  let ev1 := bertEvents path config.maxlength
  let ev2 := isfileEvents path
  -- Shared tail: dispatch on the (possibly re-derived) method
  let finish : Option String → List Event → Except PyErr Strategy × List Event :=
    fun m evs =>
      if m == Option.some "clspooling" then
        (Except.ok (Strategy.clsPooling path device tokenizer maxlength modelargs), evs)
      else
        (Except.ok (Strategy.meanPooling path device tokenizer maxlength modelargs), evs)
  -- Default pooling returns hidden state
  if rawBranch fs method path then
    (Except.ok (Strategy.pooling path device tokenizer maxlength modelargs), ev1 ++ ev2)
  else
    let ev3 := existsEvents method path
    if methodUnpinned method && strNotLocal fs path then
      match PoolingFactory.method hub path with
      | Except.error e => (Except.error e, ev1 ++ ev2 ++ ev3 ++ [Event.poolingLookup path])
      | Except.ok m => finish (Option.some m) (ev1 ++ ev2 ++ ev3 ++ [Event.poolingLookup path])
    else
      finish method (ev1 ++ ev2 ++ ev3)

/-- A hub holding no artifacts at all: every lookup hits
`EntryNotFoundError`. -/
def hubEmpty : Hub := ⟨fun _ => Option.none, fun _ => Option.none⟩

/-- A hub whose pooling config declares both flags true. -/
def hubBothTrue : Hub :=
  ⟨fun _ => Option.some ⟨Option.some true, Option.some true⟩, fun _ => Option.none⟩

/-- A filesystem on which no path exists. -/
def fsNone : FS := ⟨fun _ => false, fun _ => false⟩

/-- A filesystem on which every path is an existing file. -/
def fsLocal : FS := ⟨fun _ => true, fun _ => true⟩

/-- A remote-style configuration: unrecognized (absent) method, string path,
no maxlength derivation requested. -/
def cfgRemote : Config :=
  ⟨Option.none, PyPath.str "model", Option.none, Option.none, MaxLen.none, Option.none⟩

/-- A configuration with a string path and `maxlength = True`
(auto-derivation requested). -/
def cfgDerive : Config :=
  ⟨Option.none, PyPath.str "model", Option.none, Option.none, MaxLen.bool true, Option.none⟩

/-- A configuration with a string path and an explicit integer maxlength. -/
def cfgLocalInt : Config :=
  ⟨Option.none, PyPath.str "model", Option.none, Option.none, MaxLen.int 7, Option.none⟩

/-- A configuration with a string path and the boolean `False` maxlength. -/
def cfgBoolFalse : Config :=
  ⟨Option.none, PyPath.str "model", Option.none, Option.none, MaxLen.bool false, Option.none⟩

/-- A configuration whose `path` entry is `None` and whose maxlength is the
boolean `True`. -/
def cfgNoPathDerive : Config :=
  ⟨Option.none, PyPath.none, Option.none, Option.none, MaxLen.bool true, Option.none⟩

/-- A configuration whose `path` entry is `None`, with a pinned cls method. -/
def cfgNoPathCls : Config :=
  ⟨Option.some "clspooling", PyPath.none, Option.none, Option.none, MaxLen.none, Option.none⟩

/-- A hub whose pooling config lacks the `pooling_mode_cls_token` field. -/
def hubNoCls : Hub :=
  ⟨fun _ => Option.some ⟨Option.none, Option.some true⟩, fun _ => Option.none⟩

/-- A hub whose pooling config lacks both flags. -/
def hubMalformed : Hub :=
  ⟨fun _ => Option.some ⟨Option.none, Option.none⟩, fun _ => Option.none⟩

/-- A hub with differently incomplete artifacts behind different paths. -/
def hubMixed : Hub :=
  ⟨fun p =>
    match p with
    | PyPath.str "a" => Option.some ⟨Option.none, Option.some true⟩
    | PyPath.str "b" => Option.some ⟨Option.some true, Option.none⟩
    | PyPath.str "c" => Option.some ⟨Option.some false, Option.none⟩
    | _ => Option.none,
   fun _ => Option.some ⟨Option.none⟩⟩

/-- A hub is well-formed when every pooling artifact it holds carries both
boolean flags (the shape the sentence-transformers convention guarantees). -/
def Hub.WellFormed (hub : Hub) : Prop :=
  ∀ p c, hub.poolingConfig p = Option.some c →
    (∃ b, c.pooling_mode_cls_token = Option.some b) ∧
    (∃ b, c.pooling_mode_mean_tokens = Option.some b)

/-- Recognizer for tokenizer-config lookup events, used to count how often the
maxlength resolver runs within one `create` call. -/
def isBertLookup : Event → Bool
  | Event.bertLookup _ => true
  | _ => false

/-- A hub holding only a tokenizer config with `max_seq_length = 128`. -/
def hubBert128 : Hub :=
  ⟨fun _ => Option.none, fun _ => Option.some ⟨Option.some 128⟩⟩

/-- A hub built separately from `hubEmpty` but with the same lookup results
everywhere. -/
def hubEmptyTwin : Hub := ⟨fun _ => Option.none, fun _ => Option.none⟩

/-- The maxlength-resolver guard holds exactly for the boolean `True`. -/
theorem MaxLen.isTrue_iff (ml : MaxLen) : ml.isTrue = true ↔ ml = MaxLen.bool true := by
  cases ml <;> simp [MaxLen.isTrue]

/-- The left conjunct of the method-derivation guard holds exactly when the
configured method is not one of the two recognized values. -/
theorem methodUnpinned_iff (m : Option String) :
    methodUnpinned m = true ↔
      (m ≠ Option.some "clspooling" ∧ m ≠ Option.some "meanpooling") := by
  cases m with
  | none => simp [methodUnpinned]
  | some s =>
    by_cases hs : s = ""
    · subst hs; simp [methodUnpinned]
    · simp [methodUnpinned, hs]

/-- The right conjunct of the method-derivation guard holds exactly for a
string path that does not exist locally. -/
theorem strNotLocal_iff (fs : FS) (p : PyPath) :
    strNotLocal fs p = true ↔ ∃ s, p = PyPath.str s ∧ fs.pathexists s = false := by
  cases p <;> simp [strNotLocal]

/-- `create` when the raw branch is taken. -/
theorem create_raw_eq (fs : FS) (hub : Hub) (m : Option String) (p : PyPath)
    (d t : Option Nat) (ml : MaxLen) (ma : Option Nat)
    (h : rawBranch fs m p = true) :
    PoolingFactory.create fs hub ⟨m, p, d, t, ml, ma⟩ =
      (Except.ok (Strategy.pooling p d t (deriveMaxlength hub p ml) ma),
        bertEvents p ml ++ isfileEvents p) := by
  simp [PoolingFactory.create, h]

/-- `create` when the raw branch is skipped and the method-derivation guard
fails: no method lookup, dispatch on the configured method. -/
theorem create_noresolve_eq (fs : FS) (hub : Hub) (m : Option String) (p : PyPath)
    (d t : Option Nat) (ml : MaxLen) (ma : Option Nat)
    (h : rawBranch fs m p = false)
    (hg : (methodUnpinned m && strNotLocal fs p) = false) :
    PoolingFactory.create fs hub ⟨m, p, d, t, ml, ma⟩ =
      (Except.ok
        (if m == Option.some "clspooling" then
          Strategy.clsPooling p d t (deriveMaxlength hub p ml) ma
        else Strategy.meanPooling p d t (deriveMaxlength hub p ml) ma),
        bertEvents p ml ++ isfileEvents p ++ existsEvents m p) := by
  simp only [PoolingFactory.create, h, hg]
  simp
  split <;> rfl

/-- `create` when the method-derivation guard holds and the resolver raises:
the `KeyError` propagates after the lookup was recorded. -/
theorem create_resolve_err_eq (fs : FS) (hub : Hub) (m : Option String) (p : PyPath)
    (d t : Option Nat) (ml : MaxLen) (ma : Option Nat) (e : PyErr)
    (h : rawBranch fs m p = false)
    (hg : (methodUnpinned m && strNotLocal fs p) = true)
    (hres : PoolingFactory.method hub p = Except.error e) :
    PoolingFactory.create fs hub ⟨m, p, d, t, ml, ma⟩ =
      (Except.error e,
        bertEvents p ml ++ isfileEvents p ++ existsEvents m p ++ [Event.poolingLookup p]) := by
  simp only [PoolingFactory.create, h, hg]
  simp [hres]

/-- `create` when the method-derivation guard holds and the resolver returns:
dispatch on the resolved method. -/
theorem create_resolve_ok_eq (fs : FS) (hub : Hub) (m : Option String) (p : PyPath)
    (d t : Option Nat) (ml : MaxLen) (ma : Option Nat) (r : String)
    (h : rawBranch fs m p = false)
    (hg : (methodUnpinned m && strNotLocal fs p) = true)
    (hres : PoolingFactory.method hub p = Except.ok r) :
    PoolingFactory.create fs hub ⟨m, p, d, t, ml, ma⟩ =
      (Except.ok
        (if r == "clspooling" then Strategy.clsPooling p d t (deriveMaxlength hub p ml) ma
        else Strategy.meanPooling p d t (deriveMaxlength hub p ml) ma),
        bertEvents p ml ++ isfileEvents p ++ existsEvents m p ++ [Event.poolingLookup p]) := by
  simp only [PoolingFactory.create, h, hg]
  simp [hres]
  split <;> rfl

/-- No method lookup is ever recorded by steps 1-2 of `create`. -/
theorem poolingLookup_not_mem_steps (q p : PyPath) (m : Option String) (ml : MaxLen) :
    Event.poolingLookup q ∉ bertEvents p ml ++ isfileEvents p ++ existsEvents m p := by
  cases p <;>
    simp only [bertEvents, isfileEvents, existsEvents] <;>
    split <;> split <;> simp

/-- A `sentence_bert_config.json` lookup is recorded exactly when the
configured `maxlength` is the boolean `True`. -/
theorem bertLookup_mem_bertEvents_iff (q p : PyPath) (ml : MaxLen) :
    Event.bertLookup q ∈ bertEvents p ml ↔ (q = p ∧ ml = MaxLen.bool true) := by
  rw [bertEvents]
  split
  · rename_i hml
    rw [MaxLen.isTrue_iff] at hml
    simp [hml]
  · rename_i hml
    simp only [Bool.not_eq_true, ← Bool.not_eq_true, MaxLen.isTrue_iff] at hml
    simp [hml]

/-- No `sentence_bert_config.json` lookup is recorded by the isfile or exists
checks or the method lookup. -/
theorem bertLookup_not_mem_rest (q p : PyPath) (m : Option String) :
    Event.bertLookup q ∉ isfileEvents p ++ existsEvents m p ++ [Event.poolingLookup p] := by
  cases p <;>
    simp only [isfileEvents, existsEvents] <;>
    split <;> simp

/-- C2: for a configuration not taken by the raw branch, the method resolver
is invoked exactly when the configured method is not one of the two
recognized values and the path is a string that does not exist locally. -/
theorem C2_method_lookup_guard (fs : FS) (hub : Hub) (cfg : Config)
    (h : rawBranch fs cfg.method cfg.path = false) :
    ((∃ q, Event.poolingLookup q ∈ (PoolingFactory.create fs hub cfg).2) ↔
      ((cfg.method ≠ Option.some "clspooling" ∧ cfg.method ≠ Option.some "meanpooling") ∧
        ∃ s, cfg.path = PyPath.str s ∧ fs.pathexists s = false)) := by
  obtain ⟨m, p, d, t, ml, ma⟩ := cfg
  rw [← methodUnpinned_iff, ← strNotLocal_iff fs]
  cases hg : (methodUnpinned m && strNotLocal fs p) with
  | false =>
    rw [create_noresolve_eq fs hub m p d t ml ma h hg]
    constructor
    · rintro ⟨q, hq⟩
      exact absurd hq (poolingLookup_not_mem_steps q p m ml)
    · rintro ⟨h1, h2⟩
      simp [h1, h2] at hg
  | true =>
    have hand : methodUnpinned m = true ∧ strNotLocal fs p = true := by simpa using hg
    cases hres : PoolingFactory.method hub p with
    | error e =>
      rw [create_resolve_err_eq fs hub m p d t ml ma e h hg hres]
      exact iff_of_true ⟨p, by simp⟩ hand
    | ok r =>
      rw [create_resolve_ok_eq fs hub m p d t ml ma r h hg hres]
      exact iff_of_true ⟨p, by simp⟩ hand

/-- C2 witness: an unpinned method with a non-local string path triggers the
method lookup. -/
theorem C2_method_lookup_guard_witness :
    rawBranch fsNone cfgRemote.method cfgRemote.path = false ∧
    (∃ q, Event.poolingLookup q ∈ (PoolingFactory.create fsNone hubEmpty cfgRemote).2) :=
  ⟨rfl, (C2_method_lookup_guard fsNone hubEmpty cfgRemote rfl).mpr
    ⟨⟨by decide, by decide⟩, "model", rfl, rfl⟩⟩

/-- C1: for a successfully loaded pooling-config artifact carrying both
boolean flags, the method resolver returns `"clspooling"` iff the CLS flag is
true and the mean flag is false; in every other flag combination (both true,
both false, cls false) it returns `"meanpooling"`. -/
theorem C1_method_flags (hub : Hub) (p : PyPath) (c m : Bool)
    (h : hub.poolingConfig p = Option.some ⟨Option.some c, Option.some m⟩) :
    (PoolingFactory.method hub p = Except.ok "clspooling" ↔ (c = true ∧ m = false)) ∧
    (¬(c = true ∧ m = false) → PoolingFactory.method hub p = Except.ok "meanpooling") := by
  unfold PoolingFactory.method
  rw [h]
  cases c <;> cases m <;> simp

/-- C1 witness: on an artifact with both flags true, the result is
`"meanpooling"` (mean takes precedence when both are true). -/
theorem C1_method_flags_witness :
    hubBothTrue.poolingConfig (PyPath.str "model") =
      Option.some ⟨Option.some true, Option.some true⟩ ∧
    PoolingFactory.method hubBothTrue (PyPath.str "model") = Except.ok "meanpooling" :=
  ⟨rfl, (C1_method_flags hubBothTrue (PyPath.str "model") true true rfl).2 (by simp)⟩

/-- C3 counterexample: with an existing local file as path and
`maxlength = True`, `create` still performs the remote
`sentence_bert_config.json` lookup before the local-file branch, refuting
"no remote config lookup whatsoever for any value of the maxlength option". -/
theorem C3_counterexample :
    fsLocal.isfile "model" = true ∧ cfgDerive.path = PyPath.str "model" ∧
    Event.bertLookup (PyPath.str "model") ∈
      (PoolingFactory.create fsLocal hubEmpty cfgDerive).2 := by
  refine ⟨rfl, rfl, ?_⟩
  have heq := create_raw_eq fsLocal hubEmpty Option.none (PyPath.str "model")
    Option.none Option.none (MaxLen.bool true) Option.none rfl
  simp only [cfgDerive]
  rw [heq]
  simp [bertEvents, MaxLen.isTrue]

/-- C3 amended: for a configuration whose path is a string naming an existing
local file and whose maxlength option is not the boolean `True`, `create`
performs no hub lookup, and when no method is specified it returns the raw
`Pooling` strategy with the maxlength passed through unchanged. -/
theorem C3_amended_local_no_lookup (fs : FS) (hub : Hub) (cfg : Config) (s : String)
    (hp : cfg.path = PyPath.str s) (hf : fs.isfile s = true)
    (hml : cfg.maxlength ≠ MaxLen.bool true) :
    (∀ q, Event.bertLookup q ∉ (PoolingFactory.create fs hub cfg).2) ∧
    (∀ q, Event.poolingLookup q ∉ (PoolingFactory.create fs hub cfg).2) ∧
    (cfg.method = Option.none →
      (PoolingFactory.create fs hub cfg).1 =
        Except.ok (Strategy.pooling cfg.path cfg.device cfg.tokenizer cfg.maxlength
          cfg.modelargs)) := by
  obtain ⟨m, p, d, t, ml, ma⟩ := cfg
  replace hp : p = PyPath.str s := hp
  replace hml : ml ≠ MaxLen.bool true := hml
  subst hp
  have hraw : rawBranch fs m (PyPath.str s) = true := by
    simp [rawBranch, hf]
  have heq := create_raw_eq fs hub m (PyPath.str s) d t ml ma hraw
  have hml' : ml.isTrue = false := by
    cases ml <;> simp_all [MaxLen.isTrue]
  refine ⟨?_, ?_, ?_⟩
  · intro q
    rw [heq]
    simp [bertEvents, isfileEvents, hml']
  · intro q
    rw [heq]
    simp [bertEvents, isfileEvents, hml']
  · intro _
    rw [heq]
    simp [deriveMaxlength, hml']

/-- C3 amended witness: an existing local file with an integer maxlength gets
the raw strategy with that maxlength and no hub lookup. -/
theorem C3_amended_local_no_lookup_witness :
    cfgLocalInt.path = PyPath.str "model" ∧ fsLocal.isfile "model" = true ∧
    cfgLocalInt.maxlength ≠ MaxLen.bool true ∧
    (PoolingFactory.create fsLocal hubEmpty cfgLocalInt).1 =
      Except.ok (Strategy.pooling cfgLocalInt.path cfgLocalInt.device cfgLocalInt.tokenizer
        cfgLocalInt.maxlength cfgLocalInt.modelargs) :=
  ⟨rfl, rfl, by decide,
    (C3_amended_local_no_lookup fsLocal hubEmpty cfgLocalInt "model" rfl rfl
      (by decide)).2.2 rfl⟩

/-- C4 counterexample: on a present pooling config missing the
`pooling_mode_cls_token` field, the method resolver raises `KeyError` instead
of degrading to `"meanpooling"`, refuting "the resolvers never raise". -/
theorem C4_counterexample :
    hubNoCls.poolingConfig (PyPath.str "model") =
      Option.some ⟨Option.none, Option.some true⟩ ∧
    PoolingFactory.method hubNoCls (PyPath.str "model") =
      Except.error (PyErr.keyError "pooling_mode_cls_token") :=
  ⟨rfl, rfl⟩

/-- C4 amended: a tokenizer config missing `max_seq_length` resolves to unset
maxlength, but a pooling config missing the cls flag raises `KeyError`, as
does one with the cls flag true and the mean flag missing; only under a false
cls flag does a missing mean flag degrade to `"meanpooling"` (short-circuit). -/
theorem C4_amended_incomplete_configs (hub : Hub) (p : PyPath) :
    (∀ x, hub.poolingConfig p = Option.some ⟨Option.none, x⟩ →
      PoolingFactory.method hub p = Except.error (PyErr.keyError "pooling_mode_cls_token")) ∧
    (hub.poolingConfig p = Option.some ⟨Option.some true, Option.none⟩ →
      PoolingFactory.method hub p = Except.error (PyErr.keyError "pooling_mode_mean_tokens")) ∧
    (∀ x, hub.poolingConfig p = Option.some ⟨Option.some false, x⟩ →
      PoolingFactory.method hub p = Except.ok "meanpooling") ∧
    (hub.bertConfig p = Option.some ⟨Option.none⟩ →
      PoolingFactory.maxlength hub p = Option.none) := by
  refine ⟨?_, ?_, ?_, ?_⟩
  · intro x h
    unfold PoolingFactory.method
    rw [h]
  · intro h
    unfold PoolingFactory.method
    rw [h]
    rfl
  · intro x h
    unfold PoolingFactory.method
    rw [h]
    simp
  · intro h
    unfold PoolingFactory.maxlength
    rw [h]

/-- C4 amended witness: the four incomplete-artifact behaviors at concrete
paths of `hubMixed`. -/
theorem C4_amended_incomplete_configs_witness :
    PoolingFactory.method hubMixed (PyPath.str "a") =
      Except.error (PyErr.keyError "pooling_mode_cls_token") ∧
    PoolingFactory.method hubMixed (PyPath.str "b") =
      Except.error (PyErr.keyError "pooling_mode_mean_tokens") ∧
    PoolingFactory.method hubMixed (PyPath.str "c") = Except.ok "meanpooling" ∧
    PoolingFactory.maxlength hubMixed (PyPath.str "a") = Option.none :=
  ⟨(C4_amended_incomplete_configs hubMixed (PyPath.str "a")).1 (Option.some true) rfl,
   (C4_amended_incomplete_configs hubMixed (PyPath.str "b")).2.1 rfl,
   (C4_amended_incomplete_configs hubMixed (PyPath.str "c")).2.2.1 Option.none rfl,
   (C4_amended_incomplete_configs hubMixed (PyPath.str "a")).2.2.2 rfl⟩

/-- C5: an absent pooling artifact yields the default `"meanpooling"`, an
absent tokenizer artifact yields unset maxlength, and when no pooling
artifact exists anywhere the absence never surfaces: `create` still returns a
strategy. -/
theorem C5_absence_defaults (fs : FS) (hub : Hub) (p : PyPath) (cfg : Config) :
    (hub.poolingConfig p = Option.none →
      PoolingFactory.method hub p = Except.ok "meanpooling") ∧
    (hub.bertConfig p = Option.none →
      PoolingFactory.maxlength hub p = Option.none) ∧
    ((∀ q, hub.poolingConfig q = Option.none) →
      ∃ st, (PoolingFactory.create fs hub cfg).1 = Except.ok st) := by
  refine ⟨?_, ?_, ?_⟩
  · intro h
    unfold PoolingFactory.method
    rw [h]
  · intro h
    unfold PoolingFactory.maxlength
    rw [h]
  · intro hall
    obtain ⟨m, p', d, t, ml, ma⟩ := cfg
    cases hraw : rawBranch fs m p' with
    | true =>
      rw [create_raw_eq fs hub m p' d t ml ma hraw]
      exact ⟨_, rfl⟩
    | false =>
      cases hg : (methodUnpinned m && strNotLocal fs p') with
      | false =>
        rw [create_noresolve_eq fs hub m p' d t ml ma hraw hg]
        exact ⟨_, rfl⟩
      | true =>
        have hres : PoolingFactory.method hub p' = Except.ok "meanpooling" := by
          unfold PoolingFactory.method
          rw [hall p']
        rw [create_resolve_ok_eq fs hub m p' d t ml ma "meanpooling" hraw hg hres]
        exact ⟨_, rfl⟩

/-- C5 witness: the empty hub exercises all three default-on-absence
behaviors. -/
theorem C5_absence_defaults_witness :
    PoolingFactory.method hubEmpty (PyPath.str "model") = Except.ok "meanpooling" ∧
    PoolingFactory.maxlength hubEmpty (PyPath.str "model") = Option.none ∧
    ∃ st, (PoolingFactory.create fsNone hubEmpty cfgRemote).1 = Except.ok st :=
  ⟨(C5_absence_defaults fsNone hubEmpty (PyPath.str "model") cfgRemote).1 rfl,
   (C5_absence_defaults fsNone hubEmpty (PyPath.str "model") cfgRemote).2.1 rfl,
   (C5_absence_defaults fsNone hubEmpty (PyPath.str "model") cfgRemote).2.2 (fun _ => rfl)⟩

/-- The isfile check never records a tokenizer-config lookup. -/
theorem bertLookup_not_mem_isfileEvents (q p : PyPath) :
    Event.bertLookup q ∉ isfileEvents p := by
  cases p <;> simp [isfileEvents]

/-- The exists check never records a tokenizer-config lookup. -/
theorem bertLookup_not_mem_existsEvents (q : PyPath) (m : Option String) (p : PyPath) :
    Event.bertLookup q ∉ existsEvents m p := by
  cases hm : methodUnpinned m
  · simp [existsEvents, hm]
  · cases p <;> simp [existsEvents, hm]

/-- Some tokenizer-config lookup is recorded by step 1 exactly when the
configured maxlength is the boolean `True`. -/
theorem bertLookup_exists_mem_bertEvents (p : PyPath) (ml : MaxLen) :
    (∃ q, Event.bertLookup q ∈ bertEvents p ml) ↔ ml = MaxLen.bool true := by
  simp [bertLookup_mem_bertEvents_iff]

/-- C6: the maxlength resolver runs iff the configured maxlength is the
boolean `True`; any other value reaches the constructed strategy unchanged. -/
theorem C6_maxlength_gate (fs : FS) (hub : Hub) (cfg : Config) :
    ((∃ q, Event.bertLookup q ∈ (PoolingFactory.create fs hub cfg).2) ↔
      cfg.maxlength = MaxLen.bool true) ∧
    (cfg.maxlength ≠ MaxLen.bool true →
      ∀ st, (PoolingFactory.create fs hub cfg).1 = Except.ok st →
        st.maxlen = cfg.maxlength) := by
  obtain ⟨m, p, d, t, ml, ma⟩ := cfg
  have hml : ∀ h : ml ≠ MaxLen.bool true, deriveMaxlength hub p ml = ml := by
    intro h
    have : ml.isTrue = false := by
      cases ml <;> simp_all [MaxLen.isTrue]
    simp [deriveMaxlength, this]
  cases hraw : rawBranch fs m p with
  | true =>
    rw [create_raw_eq fs hub m p d t ml ma hraw]
    constructor
    · simp only [List.mem_append]
      constructor
      · rintro ⟨q, hq | hq⟩
        · exact ((bertLookup_mem_bertEvents_iff q p ml).mp hq).2
        · exact absurd hq (bertLookup_not_mem_isfileEvents q p)
      · intro h
        exact ⟨p, Or.inl ((bertLookup_mem_bertEvents_iff p p ml).mpr ⟨rfl, h⟩)⟩
    · intro h st hst
      simp only [Except.ok.injEq] at hst
      rw [← hst]
      simp [Strategy.maxlen, hml h]
  | false =>
    cases hg : (methodUnpinned m && strNotLocal fs p) with
    | false =>
      rw [create_noresolve_eq fs hub m p d t ml ma hraw hg]
      constructor
      · simp only [List.mem_append]
        constructor
        · rintro ⟨q, (hq | hq) | hq⟩
          · exact ((bertLookup_mem_bertEvents_iff q p ml).mp hq).2
          · exact absurd hq (bertLookup_not_mem_isfileEvents q p)
          · exact absurd hq (bertLookup_not_mem_existsEvents q m p)
        · intro h
          exact ⟨p, Or.inl (Or.inl ((bertLookup_mem_bertEvents_iff p p ml).mpr ⟨rfl, h⟩))⟩
      · intro h st hst
        simp only [Except.ok.injEq] at hst
        rw [← hst]
        split <;> simp [Strategy.maxlen, hml h]
    | true =>
      cases hres : PoolingFactory.method hub p with
      | error e =>
        rw [create_resolve_err_eq fs hub m p d t ml ma e hraw hg hres]
        constructor
        · simp only [List.mem_append]
          constructor
          · rintro ⟨q, ((hq | hq) | hq) | hq⟩
            · exact ((bertLookup_mem_bertEvents_iff q p ml).mp hq).2
            · exact absurd hq (bertLookup_not_mem_isfileEvents q p)
            · exact absurd hq (bertLookup_not_mem_existsEvents q m p)
            · simp at hq
          · intro h
            exact ⟨p, Or.inl (Or.inl (Or.inl
              ((bertLookup_mem_bertEvents_iff p p ml).mpr ⟨rfl, h⟩)))⟩
        · intro h st hst
          simp at hst
      | ok r =>
        rw [create_resolve_ok_eq fs hub m p d t ml ma r hraw hg hres]
        constructor
        · simp only [List.mem_append]
          constructor
          · rintro ⟨q, ((hq | hq) | hq) | hq⟩
            · exact ((bertLookup_mem_bertEvents_iff q p ml).mp hq).2
            · exact absurd hq (bertLookup_not_mem_isfileEvents q p)
            · exact absurd hq (bertLookup_not_mem_existsEvents q m p)
            · simp at hq
          · intro h
            exact ⟨p, Or.inl (Or.inl (Or.inl
              ((bertLookup_mem_bertEvents_iff p p ml).mpr ⟨rfl, h⟩)))⟩
        · intro h st hst
          simp only [Except.ok.injEq] at hst
          rw [← hst]
          split <;> simp [Strategy.maxlen, hml h]

/-- C6 witness: an integer maxlength skips the resolver and reaches the
strategy unchanged. -/
theorem C6_maxlength_gate_witness :
    cfgLocalInt.maxlength ≠ MaxLen.bool true ∧
    (PoolingFactory.create fsNone hubEmpty cfgLocalInt).1 =
      Except.ok (Strategy.meanPooling (PyPath.str "model") Option.none Option.none
        (MaxLen.int 7) Option.none) ∧
    Strategy.maxlen (Strategy.meanPooling (PyPath.str "model") Option.none Option.none
      (MaxLen.int 7) Option.none) = cfgLocalInt.maxlength :=
  ⟨by decide, rfl,
    (C6_maxlength_gate fsNone hubEmpty cfgLocalInt).2 (by decide) _ rfl⟩

/-- Under a well-formed hub the method resolver always returns. -/
theorem method_ok_of_wellFormed (hub : Hub) (p : PyPath) (hw : Hub.WellFormed hub) :
    ∃ r, PoolingFactory.method hub p = Except.ok r := by
  unfold PoolingFactory.method
  cases hcfg : hub.poolingConfig p with
  | none => exact ⟨_, rfl⟩
  | some c =>
    obtain ⟨⟨b1, h1⟩, b2, h2⟩ := hw p c hcfg
    simp only [h1, h2]
    cases b1 <;> cases b2 <;> exact ⟨_, rfl⟩

/-- C7 counterexample: for a well-formed input configuration (string path,
method and maxlength unset) but a pooling artifact lacking its flags, `create`
raises `KeyError` instead of returning a strategy, refuting "create is total
and never raises". -/
theorem C7_counterexample :
    cfgRemote.method = Option.none ∧ cfgRemote.path = PyPath.str "model" ∧
    cfgRemote.maxlength = MaxLen.none ∧
    (PoolingFactory.create fsNone hubMalformed cfgRemote).1 =
      Except.error (PyErr.keyError "pooling_mode_cls_token") :=
  ⟨rfl, rfl, rfl, rfl⟩

/-- C7 amended: provided every present pooling artifact carries both boolean
flags, `create` always returns a strategy; and when no artifacts exist at all
and the method is unset, the defaults apply: mean pooling with the maxlength
unset (if derivation was requested) or passed through. -/
theorem C7_amended_total (fs : FS) (hub : Hub) (cfg : Config) (hw : Hub.WellFormed hub) :
    (∃ st, (PoolingFactory.create fs hub cfg).1 = Except.ok st) ∧
    ((∀ q, hub.poolingConfig q = Option.none) → (∀ q, hub.bertConfig q = Option.none) →
      rawBranch fs cfg.method cfg.path = false → cfg.method = Option.none →
      (PoolingFactory.create fs hub cfg).1 =
        Except.ok (Strategy.meanPooling cfg.path cfg.device cfg.tokenizer
          (if cfg.maxlength.isTrue then MaxLen.none else cfg.maxlength) cfg.modelargs)) := by
  obtain ⟨m, p, d, t, ml, ma⟩ := cfg
  constructor
  · cases hraw : rawBranch fs m p with
    | true =>
      rw [create_raw_eq fs hub m p d t ml ma hraw]
      exact ⟨_, rfl⟩
    | false =>
      cases hg : (methodUnpinned m && strNotLocal fs p) with
      | false =>
        rw [create_noresolve_eq fs hub m p d t ml ma hraw hg]
        exact ⟨_, rfl⟩
      | true =>
        obtain ⟨r, hres⟩ := method_ok_of_wellFormed hub p hw
        rw [create_resolve_ok_eq fs hub m p d t ml ma r hraw hg hres]
        exact ⟨_, rfl⟩
  · intro hallp hallb hraw hm
    replace hm : m = Option.none := hm
    subst hm
    have hderive : deriveMaxlength hub p ml = if ml.isTrue then MaxLen.none else ml := by
      unfold deriveMaxlength PoolingFactory.maxlength
      rw [hallb p]
      cases ml.isTrue <;> simp [MaxLen.ofOption]
    cases hg : (methodUnpinned Option.none && strNotLocal fs p) with
    | false =>
      rw [create_noresolve_eq fs hub Option.none p d t ml ma hraw hg]
      simp [hderive]
    | true =>
      have hres : PoolingFactory.method hub p = Except.ok "meanpooling" := by
        unfold PoolingFactory.method
        rw [hallp p]
      rw [create_resolve_ok_eq fs hub Option.none p d t ml ma "meanpooling" hraw hg hres]
      simp [hderive]

/-- C7 amended witness: the empty hub is well-formed; with it, the default
mean strategy comes back. -/
theorem C7_amended_total_witness :
    Hub.WellFormed hubEmpty ∧
    rawBranch fsNone cfgRemote.method cfgRemote.path = false ∧
    (PoolingFactory.create fsNone hubEmpty cfgRemote).1 =
      Except.ok (Strategy.meanPooling cfgRemote.path cfgRemote.device cfgRemote.tokenizer
        (if cfgRemote.maxlength.isTrue then MaxLen.none else cfgRemote.maxlength)
        cfgRemote.modelargs) :=
  ⟨(fun _ _ h => nomatch h), rfl,
   (C7_amended_total fsNone hubEmpty cfgRemote (fun _ _ h => nomatch h)).2
     (fun _ => rfl) (fun _ => rfl) rfl rfl⟩

/-- In every successful run the strategy's maxlength is the step-1 result:
derived from the hub under `maxlength = True`, the configured value
otherwise. -/
theorem create_ok_maxlen (fs : FS) (hub : Hub) (m : Option String) (p : PyPath)
    (d t : Option Nat) (ml : MaxLen) (ma : Option Nat) (st : Strategy)
    (hst : (PoolingFactory.create fs hub ⟨m, p, d, t, ml, ma⟩).1 = Except.ok st) :
    st.maxlen = deriveMaxlength hub p ml := by
  cases hraw : rawBranch fs m p with
  | true =>
    rw [create_raw_eq fs hub m p d t ml ma hraw] at hst
    simp only [Except.ok.injEq] at hst
    rw [← hst]
    rfl
  | false =>
    cases hg : (methodUnpinned m && strNotLocal fs p) with
    | false =>
      rw [create_noresolve_eq fs hub m p d t ml ma hraw hg] at hst
      simp only [Except.ok.injEq] at hst
      rw [← hst]
      split <;> rfl
    | true =>
      cases hres : PoolingFactory.method hub p with
      | error e =>
        rw [create_resolve_err_eq fs hub m p d t ml ma e hraw hg hres] at hst
        simp at hst
      | ok r =>
        rw [create_resolve_ok_eq fs hub m p d t ml ma r hraw hg hres] at hst
        simp only [Except.ok.injEq] at hst
        rw [← hst]
        split <;> rfl

/-- The step-1 events hold at most one tokenizer-config lookup. -/
theorem countP_isBert_bertEvents (p : PyPath) (ml : MaxLen) :
    (bertEvents p ml).countP isBertLookup ≤ 1 := by
  rw [bertEvents]
  split <;> simp [isBertLookup, List.countP_cons, List.countP_nil]

/-- The isfile check records no tokenizer-config lookup. -/
theorem countP_isBert_isfileEvents (p : PyPath) :
    (isfileEvents p).countP isBertLookup = 0 := by
  cases p <;> simp [isfileEvents, isBertLookup, List.countP_cons, List.countP_nil]

/-- The exists check records no tokenizer-config lookup. -/
theorem countP_isBert_existsEvents (m : Option String) (p : PyPath) :
    (existsEvents m p).countP isBertLookup = 0 := by
  cases hm : methodUnpinned m
  · simp [existsEvents, hm]
  · cases p <;> simp [existsEvents, hm, isBertLookup, List.countP_cons, List.countP_nil]

/-- One `create` call performs at most one tokenizer-config lookup. -/
theorem create_countP_bert (fs : FS) (hub : Hub) (m : Option String) (p : PyPath)
    (d t : Option Nat) (ml : MaxLen) (ma : Option Nat) :
    (PoolingFactory.create fs hub ⟨m, p, d, t, ml, ma⟩).2.countP isBertLookup ≤ 1 := by
  cases hraw : rawBranch fs m p with
  | true =>
    rw [create_raw_eq fs hub m p d t ml ma hraw]
    simp [List.countP_append, countP_isBert_isfileEvents]
    exact countP_isBert_bertEvents p ml
  | false =>
    cases hg : (methodUnpinned m && strNotLocal fs p) with
    | false =>
      rw [create_noresolve_eq fs hub m p d t ml ma hraw hg]
      simp [List.countP_append, countP_isBert_isfileEvents, countP_isBert_existsEvents]
      exact countP_isBert_bertEvents p ml
    | true =>
      cases hres : PoolingFactory.method hub p with
      | error e =>
        rw [create_resolve_err_eq fs hub m p d t ml ma e hraw hg hres]
        simp [List.countP_append, countP_isBert_isfileEvents, countP_isBert_existsEvents,
          List.countP_cons, List.countP_nil, isBertLookup]
        exact countP_isBert_bertEvents p ml
      | ok r =>
        rw [create_resolve_ok_eq fs hub m p d t ml ma r hraw hg hres]
        simp [List.countP_append, countP_isBert_isfileEvents, countP_isBert_existsEvents,
          List.countP_cons, List.countP_nil, isBertLookup]
        exact countP_isBert_bertEvents p ml

/-- C8 counterexample: a configured maxlength of the boolean `False` is handed
to the strategy as-is, so the value reaching the strategy is neither unset nor
a positive integer, refuting "the resolved maxlength is either unset or a
positive integer". -/
theorem C8_counterexample :
    cfgBoolFalse.maxlength = MaxLen.bool false ∧
    (PoolingFactory.create fsNone hubEmpty cfgBoolFalse).1 =
      Except.ok (Strategy.meanPooling (PyPath.str "model") Option.none Option.none
        (MaxLen.bool false) Option.none) ∧
    MaxLen.bool false ≠ MaxLen.none :=
  ⟨rfl, rfl, by decide⟩

/-- C8 amended: the maxlength is derived (looked up on the hub) at most once
per `create` call; when derivation is not requested the configured value —
whatever it is — reaches the strategy unchanged, and when it is requested the
strategy receives exactly the resolver's result, with no positivity check. -/
theorem C8_amended_derive_once (fs : FS) (hub : Hub) (cfg : Config) :
    (PoolingFactory.create fs hub cfg).2.countP isBertLookup ≤ 1 ∧
    (cfg.maxlength ≠ MaxLen.bool true →
      ∀ st, (PoolingFactory.create fs hub cfg).1 = Except.ok st →
        st.maxlen = cfg.maxlength) ∧
    (cfg.maxlength = MaxLen.bool true →
      ∀ st, (PoolingFactory.create fs hub cfg).1 = Except.ok st →
        st.maxlen = MaxLen.ofOption (PoolingFactory.maxlength hub cfg.path)) := by
  obtain ⟨m, p, d, t, ml, ma⟩ := cfg
  refine ⟨create_countP_bert fs hub m p d t ml ma, ?_, ?_⟩
  · intro hml st hst
    rw [create_ok_maxlen fs hub m p d t ml ma st hst]
    have : ml.isTrue = false := by
      cases ml <;> simp_all [MaxLen.isTrue]
    simp [deriveMaxlength, this]
  · intro hml st hst
    rw [create_ok_maxlen fs hub m p d t ml ma st hst]
    replace hml : ml = MaxLen.bool true := hml
    subst hml
    simp [deriveMaxlength, MaxLen.isTrue]

/-- C8 amended witness: with `maxlength = True` and an artifact declaring 128,
the strategy receives the derived 128 and the lookup happened at most once. -/
theorem C8_amended_derive_once_witness :
    cfgDerive.maxlength = MaxLen.bool true ∧
    (PoolingFactory.create fsNone hubBert128 cfgDerive).2.countP isBertLookup ≤ 1 ∧
    (PoolingFactory.create fsNone hubBert128 cfgDerive).1 =
      Except.ok (Strategy.meanPooling (PyPath.str "model") Option.none Option.none
        (MaxLen.int 128) Option.none) ∧
    Strategy.maxlen (Strategy.meanPooling (PyPath.str "model") Option.none Option.none
      (MaxLen.int 128) Option.none) =
      MaxLen.ofOption (PoolingFactory.maxlength hubBert128 cfgDerive.path) :=
  ⟨rfl, (C8_amended_derive_once fsNone hubBert128 cfgDerive).1, rfl,
   (C8_amended_derive_once fsNone hubBert128 cfgDerive).2.2 rfl _ rfl⟩

/-- C9: two `create` calls with the same configuration against hubs giving
identical lookup results produce identical outcomes — in particular the same
strategy variant and the same resolved method and maxlength. -/
theorem C9_deterministic (fs : FS) (hub1 hub2 : Hub) (cfg : Config)
    (hp : ∀ p, hub1.poolingConfig p = hub2.poolingConfig p)
    (hb : ∀ p, hub1.bertConfig p = hub2.bertConfig p) :
    PoolingFactory.create fs hub1 cfg = PoolingFactory.create fs hub2 cfg := by
  have h12 : hub1 = hub2 := by
    cases hub1
    cases hub2
    simp only [Hub.mk.injEq]
    exact ⟨funext hp, funext hb⟩
  rw [h12]

/-- C9 witness: two separately built hubs with the same (empty) artifact state
yield the same result. -/
theorem C9_deterministic_witness :
    PoolingFactory.create fsNone hubEmpty cfgRemote =
      PoolingFactory.create fsNone hubEmptyTwin cfgRemote :=
  C9_deterministic fsNone hubEmpty hubEmptyTwin cfgRemote (fun _ => rfl) (fun _ => rfl)

/-- C10 counterexample: with `path = None`, method unset and
`maxlength = True`, `create` still performs a remote tokenizer-config lookup,
refuting "no filesystem check and no remote lookup" for such configurations. -/
theorem C10_counterexample :
    cfgNoPathDerive.path = PyPath.none ∧
    cfgNoPathDerive.method ≠ Option.some "pooling" ∧
    Event.bertLookup PyPath.none ∈
      (PoolingFactory.create fsNone hubEmpty cfgNoPathDerive).2 := by
  refine ⟨rfl, by decide, ?_⟩
  have h : (PoolingFactory.create fsNone hubEmpty cfgNoPathDerive).2 =
      [Event.bertLookup PyPath.none] := rfl
  rw [h]
  simp

/-- C10 amended: for a configuration whose path is neither a string nor bytes,
whose method is not `"pooling"` and whose maxlength is not the boolean `True`,
`create` performs no filesystem check and no hub lookup, and returns
`ClsPooling` iff the configured method equals `"clspooling"`, otherwise
`MeanPooling`. -/
theorem C10_amended_nopath (fs : FS) (hub : Hub) (cfg : Config)
    (hp : cfg.path = PyPath.none) (hm : cfg.method ≠ Option.some "pooling")
    (hml : cfg.maxlength ≠ MaxLen.bool true) :
    (PoolingFactory.create fs hub cfg).2 = [] ∧
    (PoolingFactory.create fs hub cfg).1 =
      Except.ok
        (if cfg.method == Option.some "clspooling" then
          Strategy.clsPooling cfg.path cfg.device cfg.tokenizer cfg.maxlength cfg.modelargs
        else
          Strategy.meanPooling cfg.path cfg.device cfg.tokenizer cfg.maxlength
            cfg.modelargs) := by
  obtain ⟨m, p, d, t, ml, ma⟩ := cfg
  replace hp : p = PyPath.none := hp
  replace hm : m ≠ Option.some "pooling" := hm
  replace hml : ml ≠ MaxLen.bool true := hml
  subst hp
  have hraw : rawBranch fs m PyPath.none = false := by
    simp [rawBranch, hm]
  have hg : (methodUnpinned m && strNotLocal fs PyPath.none) = false := by
    simp [strNotLocal]
  have heq := create_noresolve_eq fs hub m PyPath.none d t ml ma hraw hg
  have hml' : ml.isTrue = false := by
    cases ml <;> simp_all [MaxLen.isTrue]
  constructor
  · rw [heq]
    simp [bertEvents, isfileEvents, existsEvents, hml']
  · rw [heq]
    simp [deriveMaxlength, hml']

/-- C10 amended witness: a `None` path with a pinned cls method yields
`ClsPooling` with an empty trace. -/
theorem C10_amended_nopath_witness :
    cfgNoPathCls.path = PyPath.none ∧
    cfgNoPathCls.method ≠ Option.some "pooling" ∧
    cfgNoPathCls.maxlength ≠ MaxLen.bool true ∧
    (PoolingFactory.create fsNone hubEmpty cfgNoPathCls).2 = [] ∧
    (PoolingFactory.create fsNone hubEmpty cfgNoPathCls).1 =
      Except.ok
        (if cfgNoPathCls.method == Option.some "clspooling" then
          Strategy.clsPooling cfgNoPathCls.path cfgNoPathCls.device cfgNoPathCls.tokenizer
            cfgNoPathCls.maxlength cfgNoPathCls.modelargs
        else
          Strategy.meanPooling cfgNoPathCls.path cfgNoPathCls.device cfgNoPathCls.tokenizer
            cfgNoPathCls.maxlength cfgNoPathCls.modelargs) :=
  ⟨rfl, by decide, by decide,
   (C10_amended_nopath fsNone hubEmpty cfgNoPathCls rfl (by decide) (by decide)).1,
   (C10_amended_nopath fsNone hubEmpty cfgNoPathCls rfl (by decide) (by decide)).2⟩
